import Mathlib

/-!
Shallow embedding of the footballBackEnd repository: the bulk-upsert CRUD
endpoints (`src/api/routes/nfl_teams.py`, `nfl_games.py`, `rosters.py`), the
scoped database cursor (`src/database.py`), and the ESPN ingestion pipelines
(`scripts/espn_fetchers/*.py`).  Python dictionaries are modelled as
association lists with insert-or-overwrite semantics, machine integers as
`Nat`/`Int`, fallible code as `Option`/`Except`, and the database table a
bulk endpoint writes to as an in-memory list of rows threaded through the
handler.
-/

/-- HTTP-level error: FastAPI's `HTTPException` (status code and detail) and,
for the fetcher scripts, a raised `requests` error. -/
structure HTTPError where
  status : Nat
  detail : String
deriving DecidableEq, Repr

/-- `BulkCreateResponse` from `src/api/models.py`. -/
structure BulkCreateResponse where
  success : Bool
  inserted_count : Nat
  updated_count : Nat
  message : String
deriving DecidableEq, Repr

instance {ε α : Type} [DecidableEq ε] [DecidableEq α] : DecidableEq (Except ε α) := fun a b =>
  match a, b with
  | .error x, .error y =>
    if h : x = y then isTrue (by rw [h]) else isFalse (fun hh => h (by cases hh; rfl))
  | .error _, .ok _ => isFalse (fun hh => by cases hh)
  | .ok _, .error _ => isFalse (fun hh => by cases hh)
  | .ok x, .ok y =>
    if h : x = y then isTrue (by rw [h]) else isFalse (fun hh => h (by cases hh; rfl))

/-- Outcome of one request to a bulk endpoint: the table after the request
(the visible database state), whether the handler entered the
`with get_db_cursor()` block, and the HTTP response. -/
structure EndpointResult (ρ : Type) where
  db : ρ
  cursorOpened : Bool
  response : Except HTTPError BulkCreateResponse
deriving DecidableEq

/-- `NFLTeamCreate` from `src/api/models.py`: the columns written by the
teams upsert (surrogate id and timestamps are database-generated and not
modelled). -/
structure NFLTeamCreate where
  team_code : String
  team_name : String
  city : String
  conference : String
  division : String
deriving DecidableEq, Repr

/-- The `DO UPDATE SET` arm of the teams upsert: on a `team_code` conflict the
existing row keeps its key and takes the submitted `team_name`, `city`,
`conference` and `division`. -/
def overwrite_team (t r : NFLTeamCreate) : NFLTeamCreate :=
  if r.team_code == t.team_code then
    { r with team_name := t.team_name, city := t.city,
             conference := t.conference, division := t.division }
  else r

/-- One `INSERT ... ON CONFLICT (team_code) DO UPDATE ... RETURNING (xmax = 0)`
statement.  The returned `Bool` models the `xmax = 0` introspection: it is
`true` exactly when no conflicting row existed, i.e. when a fresh row was
inserted. -/
def upsert_nfl_team (tbl : List NFLTeamCreate) (t : NFLTeamCreate) :
    List NFLTeamCreate × Bool :=
  if tbl.any (fun r => r.team_code == t.team_code) then
    (tbl.map (overwrite_team t), false)
  else
    (tbl ++ [t], true)

/-- One iteration of a bulk endpoint's upsert loop: run the upsert, then count
the record as inserted when the `xmax = 0` flag reports a fresh row and as
updated otherwise. -/
def bulkStep {R : Type} (upsert : List R → R → List R × Bool) :
    List R × Nat × Nat → R → List R × Nat × Nat :=
  fun s r =>
    let u := upsert s.1 r
    if u.2 then (u.1, s.2.1 + 1, s.2.2) else (u.1, s.2.1, s.2.2 + 1)

/-- The whole row-by-row upsert loop of a bulk endpoint, started with zero
counters. -/
def bulkUpsertLoop {R : Type} (upsert : List R → R → List R × Bool)
    (tbl : List R) (recs : List R) : List R × Nat × Nat :=
  recs.foldl (bulkStep upsert) (tbl, 0, 0)

/-- `create_teams` from `src/api/routes/nfl_teams.py`: reject an empty list
with HTTP 400 before opening a cursor, otherwise upsert row by row and report
the insert/update counts. -/
def create_teams (tbl : List NFLTeamCreate) (teams : List NFLTeamCreate) :
    EndpointResult (List NFLTeamCreate) :=
  if teams.isEmpty then
    ⟨tbl, false, .error ⟨400, "No teams provided"⟩⟩
  else
    let s := bulkUpsertLoop upsert_nfl_team tbl teams
    ⟨s.1, true, .ok ⟨true, s.2.1, s.2.2,
      "Processed " ++ toString teams.length ++ " teams: " ++
        toString s.2.1 ++ " inserted, " ++ toString s.2.2 ++ " updated"⟩⟩

/-- `NFLGameCreate` from `src/api/models.py` (dates kept as ISO strings). -/
structure NFLGameCreate where
  season : Nat
  week : Nat
  game_date : String
  home_team_id : Nat
  away_team_id : Nat
  home_score : Option Int
  away_score : Option Int
  is_final : Bool
  game_type : String
  external_id : Option String
deriving DecidableEq, Repr

/-- Conflict predicate of the games upsert:
`ON CONFLICT (season, week, home_team_id, away_team_id)`. -/
def game_conflict (g r : NFLGameCreate) : Bool :=
  r.season == g.season && r.week == g.week &&
    r.home_team_id == g.home_team_id && r.away_team_id == g.away_team_id

/-- The `DO UPDATE SET` arm of the games upsert. -/
def overwrite_game (g r : NFLGameCreate) : NFLGameCreate :=
  if game_conflict g r then
    { r with game_date := g.game_date, home_score := g.home_score,
             away_score := g.away_score, is_final := g.is_final,
             game_type := g.game_type, external_id := g.external_id }
  else r

/-- One games upsert statement with its `xmax = 0` flag. -/
def upsert_nfl_game (tbl : List NFLGameCreate) (g : NFLGameCreate) :
    List NFLGameCreate × Bool :=
  if tbl.any (game_conflict g) then
    (tbl.map (overwrite_game g), false)
  else
    (tbl ++ [g], true)

/-- `create_games` from `src/api/routes/nfl_games.py`. -/
def create_games (tbl : List NFLGameCreate) (games : List NFLGameCreate) :
    EndpointResult (List NFLGameCreate) :=
  if games.isEmpty then
    ⟨tbl, false, .error ⟨400, "No games provided"⟩⟩
  else
    let s := bulkUpsertLoop upsert_nfl_game tbl games
    ⟨s.1, true, .ok ⟨true, s.2.1, s.2.2,
      "Processed " ++ toString games.length ++ " games: " ++
        toString s.2.1 ++ " inserted, " ++ toString s.2.2 ++ " updated"⟩⟩

/-- `RosterEntryCreate` from `src/api/models.py` (dates as strings). -/
structure RosterEntryCreate where
  fantasy_team_id : Nat
  player_id : Nat
  acquired_date : String
  released_date : Option String
  acquisition_type : Option String
deriving DecidableEq, Repr

/-- Conflict predicate of the roster upsert:
`ON CONFLICT (fantasy_team_id, player_id, acquired_date)`. -/
def roster_conflict (e r : RosterEntryCreate) : Bool :=
  r.fantasy_team_id == e.fantasy_team_id && r.player_id == e.player_id &&
    r.acquired_date == e.acquired_date

/-- The `DO UPDATE SET` arm of the roster upsert. -/
def overwrite_roster (e r : RosterEntryCreate) : RosterEntryCreate :=
  if roster_conflict e r then
    { r with released_date := e.released_date,
             acquisition_type := e.acquisition_type }
  else r

/-- One roster-entries upsert statement with its `xmax = 0` flag. -/
def upsert_roster_entry (tbl : List RosterEntryCreate) (e : RosterEntryCreate) :
    List RosterEntryCreate × Bool :=
  if tbl.any (roster_conflict e) then
    (tbl.map (overwrite_roster e), false)
  else
    (tbl ++ [e], true)

/-- `create_roster_entries` from `src/api/routes/rosters.py`. -/
def create_roster_entries (tbl : List RosterEntryCreate)
    (entries : List RosterEntryCreate) : EndpointResult (List RosterEntryCreate) :=
  if entries.isEmpty then
    ⟨tbl, false, .error ⟨400, "No roster entries provided"⟩⟩
  else
    let s := bulkUpsertLoop upsert_roster_entry tbl entries
    ⟨s.1, true, .ok ⟨true, s.2.1, s.2.2,
      "Processed " ++ toString entries.length ++ " roster entries: " ++
        toString s.2.1 ++ " inserted, " ++ toString s.2.2 ++ " updated"⟩⟩

/-! ## Python-semantics helpers -/

/-- Python truthiness of an optional string field read with `dict.get`:
`None` and the empty string are falsy. -/
def truthyS : Option String → Bool
  | some s => s != ""
  | none => false

/-- Python truthiness of an optional integer field: `None` and `0` are falsy. -/
def truthyN : Option Nat → Bool
  | some n => n != 0
  | none => false

/-- Python `d[k] = v` on a dict modelled as an insertion-ordered association
list: overwrite the value when the key is present, append otherwise. -/
def dictInsert (m : List (String × Nat)) (k : String) (v : Nat) :
    List (String × Nat) :=
  if m.any (fun p => p.1 == k) then m.map (fun p => if p.1 == k then (k, v) else p)
  else m ++ [(k, v)]

/-- Python `d.get(k)` on the same dict model. -/
def mapLookup (m : List (String × Nat)) (k : String) : Option Nat :=
  (m.find? (fun p => p.1 == k)).map Prod.snd

/-- Python `pat in s` on strings: substring containment. -/
def pyIn (pat s : String) : Bool := decide (pat.data <:+: s.data)

/-- Split a character list at every occurrence of `sep`; always returns at
least one (possibly empty) group, like Python `str.split(sep)`. -/
def splitChar (sep : Char) : List Char → List (List Char)
  | [] => [[]]
  | c :: cs =>
    match splitChar sep cs with
    | [] => [[]]
    | g :: gs => if c = sep then [] :: g :: gs else (c :: g) :: gs

/-- Python `s.split(sep)` for a one-character separator. -/
def pySplit (sep : Char) (s : String) : List String :=
  (splitChar sep s.data).map String.mk

/-- Numeric value of a digit list (most significant first). -/
def parseDigitsVal (l : List Char) : Nat :=
  l.foldl (fun a c => a * 10 + (c.toNat - '0'.toNat)) 0

/-- Parse a non-empty all-digit character list, `none` otherwise. -/
def parseDigits (l : List Char) : Option Nat :=
  if l ≠ [] ∧ l.all Char.isDigit then some (parseDigitsVal l) else none

/-- Model of Python `int(s)` on plain optionally-signed decimal integer
literals; `none` models a raised `ValueError`. -/
def pyInt (s : String) : Option Int :=
  match s.data with
  | '-' :: rest => (parseDigits rest).map (fun n => -(n : Int))
  | '+' :: rest => (parseDigits rest).map (fun n => (n : Int))
  | l => (parseDigits l).map (fun n => (n : Int))

/-- Parse an unsigned decimal literal with at most one point into an exact
rational. -/
def parseDecimalChars (l : List Char) : Option ℚ :=
  match splitChar '.' l with
  | [a] => (parseDigits a).map (fun n => mkRat n 1)
  | [a, b] =>
    if (a ++ b) ≠ [] ∧ (a ++ b).all Char.isDigit then
      some (mkRat (parseDigitsVal (a ++ b)) (10 ^ b.length))
    else none
  | _ => none

/-- Model of Python `float(s)` on plain optionally-signed decimal literals
(floats carried as exact rationals); `none` models a raised `ValueError`. -/
def pyFloat (s : String) : Option ℚ :=
  match s.data with
  | '-' :: rest => (parseDecimalChars rest).map (fun q => -q)
  | '+' :: rest => parseDecimalChars rest
  | l => parseDecimalChars l

/-- Python `int(x)` on a float: truncation toward zero. -/
def pyTrunc (q : ℚ) : Int := q.num.tdiv q.den

/-- Python `s.replace(c, rep)` for a one-character pattern. -/
def pyReplaceChar (c : Char) (rep : String) (s : String) : String :=
  String.mk (List.intercalate rep.data (splitChar c s.data))

/-- Split a character list at the first occurrence of `sep` only, like
Python `str.split(sep, 1)`; `none` when `sep` does not occur. -/
def splitFirst (sep : Char) : List Char → Option (List Char × List Char)
  | [] => none
  | c :: cs =>
    if c = sep then some ([], cs)
    else (splitFirst sep cs).map (fun p => (c :: p.1, p.2))

/-- Python `s.lower()`. -/
def pyLower (s : String) : String := String.mk (s.data.map Char.toLower)

/-- Python `x or dflt` on an optional string: the default replaces `None`
and the empty string. -/
def pyOrStr (o : Option String) (dflt : String) : String :=
  match o with
  | some s => if s = "" then dflt else s
  | none => dflt

/-! ## `src/database.py`: the scoped cursor -/

/-- Observable outcome of one `with get_db_cursor(...)` block: the result
handed to the caller (re-raised exception or returned value), the database
state visible after the block, and whether rollback/close happened. -/
structure CursorRun (σ α : Type) where
  result : Except String α
  db : σ
  rolledBack : Bool
  cursorClosed : Bool
  connClosed : Bool
deriving DecidableEq

/-- `get_db_cursor` from `src/database.py`.  `db` is the committed database
state, `connectOk` whether `get_connection` succeeds, and `body` the cursor
block running inside the connection's transaction (it sees the committed
state and produces a new transaction state or raises).  On a raised
exception the transaction is rolled back and the exception re-raised; on
success the transaction is committed only when `commit` is set (closing an
uncommitted psycopg2 connection discards the transaction); cursor and
connection are closed whenever the connection was obtained. -/
def get_db_cursor {σ α : Type} (commit : Bool) (db : σ) (connectOk : Bool)
    (body : σ → Except String (σ × α)) : CursorRun σ α :=
  if !connectOk then ⟨.error "Database connection error", db, false, false, false⟩
  else
    match body db with
    | .ok (db2, a) => ⟨.ok a, if commit then db2 else db, false, true, true⟩
    | .error e => ⟨.error e, db, true, true, true⟩

/-! ## Identifier lookup maps (`build_team_map`, `build_player_map`) -/

/-- A row of `GET /api/nfl/teams` as the fetchers read it: only the fields
the map builders touch, each optional since read with `dict.get`. -/
structure APITeamRow where
  team_code : Option String
  id : Option Nat
deriving DecidableEq, Repr

/-- A row of `GET /api/nfl/players` as the fetchers read it. -/
structure APIPlayerRow where
  external_id : Option String
  id : Option Nat
deriving DecidableEq, Repr

/-- `NFLGamesFetcher.build_team_map` from
`scripts/espn_fetchers/nfl_games_fetcher.py`: map team code to database id
for every fetched row where both fields are truthy. -/
def build_team_map (api_teams : List APITeamRow) : List (String × Nat) :=
  api_teams.foldl (fun m team =>
    if truthyS team.team_code && truthyN team.id then
      dictInsert m (team.team_code.getD "") (team.id.getD 0)
    else m) []

/-- `NFLStatsFetcher.build_player_map` from
`scripts/espn_fetchers/nfl_stats_fetcher.py`. -/
def build_player_map (api_players : List APIPlayerRow) : List (String × Nat) :=
  api_players.foldl (fun m player =>
    if truthyS player.external_id && truthyN player.id then
      dictInsert m (player.external_id.getD "") (player.id.getD 0)
    else m) []

/-- Claim C6 read literally for the player map: every fetched row with
truthy key and id has its own key mapped to its own id. -/
def playerMapClaim (rows : List APIPlayerRow) : Prop :=
  ∀ r ∈ rows, truthyS r.external_id = true ∧ truthyN r.id = true →
    mapLookup (build_player_map rows) (r.external_id.getD "") = some (r.id.getD 0)

/-! ## `scripts/espn_fetchers/nfl_teams_fetcher.py` -/

/-- `groups.parent` of an ESPN team payload. -/
structure ESPNParentGroup where
  isConference : Option Bool
  abbreviation : Option String
deriving DecidableEq, Repr

/-- `groups` of an ESPN team payload. -/
structure ESPNGroups where
  parent : Option ESPNParentGroup
  id : Option String
  name : Option String
deriving DecidableEq, Repr

/-- An ESPN team payload, fields read with `dict.get`. -/
structure ESPNTeamPayload where
  location : Option String
  name : Option String
  abbreviation : Option String
  groups : Option ESPNGroups
deriving DecidableEq, Repr

/-- The conference extraction of `transform_team`: the parent group's
abbreviation when the parent is flagged as a conference. -/
def conference_from_groups (groups : ESPNGroups) : Option String :=
  match groups.parent with
  | some parent =>
    if parent.isConference.getD false then some (parent.abbreviation.getD "")
    else none
  | none => none

/-- The division extraction of `transform_team`: substring-match the group
name against East/West/North/South when the group has an `id`. -/
def division_from_groups (groups : ESPNGroups) : Option String :=
  match groups.id with
  | none => none
  | some _ =>
    let group_name := groups.name.getD ""
    if pyIn "East" group_name then some "East"
    else if pyIn "West" group_name then some "West"
    else if pyIn "North" group_name then some "North"
    else if pyIn "South" group_name then some "South"
    else none

/-- `NFLTeamsFetcher.transform_team`: map an ESPN team payload to the API
shape, defaulting conference to `"AFC"` and division to `"East"` when not
determined (`conference or 'AFC'`, `division or 'East'`). -/
def transform_team (espn_team : ESPNTeamPayload) : NFLTeamCreate :=
  let location := espn_team.location.getD ""
  let name := espn_team.name.getD ""
  let abbreviation := espn_team.abbreviation.getD ""
  let groups := espn_team.groups.getD ⟨none, none, none⟩
  { team_code := abbreviation
    team_name := name
    city := location
    conference := pyOrStr (conference_from_groups groups) "AFC"
    division := pyOrStr (division_from_groups groups) "East" }

/-- A fetcher's transform-and-collect loop: records are processed in order,
a record whose transform yields `none` (a raised and caught exception, or an
explicit `None`) is skipped, the rest are appended. -/
def appendLoop {α β : Type} (tf : α → Option β) (xs : List α) : List β :=
  xs.foldl (fun acc x =>
    match tf x with
    | some y => acc ++ [y]
    | none => acc) []

/-- What a pipeline's `fetch_and_post` returns when it returns normally:
either the API's bulk response, or the `{"success": False, "message": ...}`
dictionary produced when there was nothing to post. -/
inductive PipelineResult where
  | posted (r : BulkCreateResponse)
  | noData (message : String)
deriving DecidableEq, Repr

/-- `NFLTeamsFetcher.fetch_and_post`: fetch the ESPN teams (a raised HTTP
error propagates, there is no try/except here), transform them record by
record, and post the batch (a raised HTTP error from the internal API also
propagates); only an empty batch produces the `success: False` dictionary. -/
def nfl_teams_fetch_and_post
    (get_teams : Except HTTPError (List ESPNTeamPayload))
    (post_nfl_teams : List NFLTeamCreate → Except HTTPError BulkCreateResponse) :
    Except HTTPError PipelineResult :=
  match get_teams with
  | .error e => .error e
  | .ok espn_teams =>
    let api_teams := appendLoop (fun t => some (transform_team t)) espn_teams
    if api_teams.isEmpty then .ok (.noData "No teams fetched")
    else (post_nfl_teams api_teams).map .posted

/-- `main` of `scripts/load_nfl_data.py`, reduced to its error flow: the
selected pipelines run sequentially inside one try block; any exception is
caught there and the script returns exit code 1, otherwise 0. -/
def load_nfl_data_main (results : List (Except HTTPError PipelineResult)) : Nat :=
  if results.any (fun r => match r with | .error _ => true | .ok _ => false) then 1
  else 0

/-! ## `scripts/espn_fetchers/nfl_games_fetcher.py` -/

/-- `competitor['team']` of an ESPN scoreboard event. -/
structure ESPNTeamRef where
  abbreviation : Option String
deriving DecidableEq, Repr

/-- A competitor entry of an ESPN scoreboard event. -/
structure ESPNCompetitor where
  team : Option ESPNTeamRef
  score : Option String
  homeAway : Option String
deriving DecidableEq, Repr

/-- `status['type']` of an ESPN competition. -/
structure ESPNStatusType where
  completed : Option Bool
deriving DecidableEq, Repr

/-- `status` of an ESPN competition. -/
structure ESPNStatus where
  type : Option ESPNStatusType
deriving DecidableEq, Repr

/-- A competition entry of an ESPN scoreboard event. -/
structure ESPNCompetition where
  competitors : Option (List ESPNCompetitor)
  status : Option ESPNStatus
deriving DecidableEq, Repr

/-- `event['season']` of an ESPN scoreboard event. -/
structure ESPNSeasonInfo where
  type : Option Nat
deriving DecidableEq, Repr

/-- An ESPN scoreboard event. -/
structure ESPNEvent where
  id : Option String
  date : Option String
  competitions : Option (List ESPNCompetition)
  season : Option ESPNSeasonInfo
deriving DecidableEq, Repr

/-- The per-side record `transform_game` builds for home and away. -/
structure TeamSide where
  abbreviation : Option String
  id : Option Nat
  score : Option Int
deriving DecidableEq, Repr

/-- `int(score) if score else None` inside `transform_game`: a falsy score
becomes `None`; an unparsable one raises (outer `none`), failing the record. -/
def parse_score (score : Option String) : Option (Option Int) :=
  match score with
  | none => some none
  | some s => if s = "" then some none else (pyInt s).map some

/-- Build one competitor's side record: abbreviation, the internal team id
looked up in `team_code_to_id`, and the parsed score. -/
def competitor_side (team_code_to_id : List (String × Nat)) (c : ESPNCompetitor) :
    Option TeamSide :=
  let team := c.team.getD ⟨none⟩
  let team_abbr := team.abbreviation
  (parse_score c.score).map (fun sc =>
    { abbreviation := team_abbr
      id := match team_abbr with
            | some a => mapLookup team_code_to_id a
            | none => none
      score := sc })

/-- The competitor loop of `transform_game`: a competitor whose `homeAway`
equals `"home"` overwrites the home slot, any other the away slot; a score
parse failure aborts the record. -/
def assign_sides (team_code_to_id : List (String × Nat))
    (competitors : List ESPNCompetitor) :
    Option (Option TeamSide × Option TeamSide) :=
  competitors.foldl (fun st c =>
    match st with
    | none => none
    | some (h, a) =>
      match competitor_side team_code_to_id c with
      | none => none
      | some side =>
        if c.homeAway == some "home" then some (some side, a) else some (h, some side))
    (some (none, none))

/-- `game_type_map = {1: 'preseason', 2: 'regular', 3: 'postseason'}` with
default `'regular'`. -/
def game_type_map (season_type : Nat) : String :=
  match season_type with
  | 1 => "preseason"
  | 2 => "regular"
  | 3 => "postseason"
  | _ => "regular"

/-- `NFLGamesFetcher.transform_game`: map one scoreboard event to the API
shape, or `none` when the record fails (a raised exception caught by the
wrapping try/except, missing competition data, or an unresolved team id).
`fromisoformat` stands for `datetime.fromisoformat`; the event's date string
has `'Z'` replaced by `'+00:00'` before parsing, and a parse failure fails
the record. -/
def transform_game (fromisoformat : String → Option String)
    (team_code_to_id : List (String × Nat)) (espn_event : ESPNEvent)
    (season week : Nat) : Option NFLGameCreate :=
  match espn_event.date with
  | none => none
  | some date_str =>
    match fromisoformat (pyReplaceChar 'Z' "+00:00" date_str) with
    | none => none
    | some game_date =>
      match espn_event.competitions.getD [] with
      | [] => none
      | competition :: _ =>
        let competitors := competition.competitors.getD []
        if competitors.length != 2 then none
        else
          match assign_sides team_code_to_id competitors with
          | none => none
          | some (homeOpt, awayOpt) =>
            match homeOpt, awayOpt with
            | some home_team, some away_team =>
              if !truthyN home_team.id || !truthyN away_team.id then none
              else
                let status_type := (competition.status.getD ⟨none⟩).type.getD ⟨none⟩
                let is_completed := status_type.completed.getD false
                let season_type := (espn_event.season.getD ⟨none⟩).type.getD 2
                some { season := season
                       week := week
                       game_date := game_date
                       home_team_id := home_team.id.getD 0
                       away_team_id := away_team.id.getD 0
                       home_score := home_team.score
                       away_score := away_team.score
                       is_final := is_completed
                       game_type := game_type_map season_type
                       external_id :=
                         match espn_event.id with
                         | some s => if s = "" then none else some ("espn_" ++ s)
                         | none => none }
            | _, _ => none

/-- The per-week event loop of `NFLGamesFetcher.fetch_and_post`: transform
each event and append the successful ones. -/
def week_events_games (fromisoformat : String → Option String)
    (team_code_to_id : List (String × Nat)) (season week : Nat)
    (events : List ESPNEvent) : List NFLGameCreate :=
  appendLoop (fun ev => transform_game fromisoformat team_code_to_id ev season week)
    events

/-! ## `scripts/espn_fetchers/nfl_players_fetcher.py` -/

/-- `athlete['position']` of an ESPN roster item. -/
structure ESPNPositionRef where
  abbreviation : Option String
deriving DecidableEq, Repr

/-- `athlete['status']` of an ESPN roster item. -/
structure ESPNPlayerStatus where
  type : Option String
deriving DecidableEq, Repr

/-- An ESPN roster athlete item. -/
structure ESPNAthleteItem where
  id : Option Nat
  fullName : Option String
  displayName : Option String
  position : Option ESPNPositionRef
  jersey : Option String
  status : Option ESPNPlayerStatus
deriving DecidableEq, Repr

/-- `NFLPlayerCreate` from `src/api/models.py`. -/
structure NFLPlayerCreate where
  external_id : Option String
  first_name : String
  last_name : String
  position : String
  nfl_team_id : Option Nat
  jersey_number : Option Nat
  status : String
deriving DecidableEq, Repr

/-- `display_name.split(' ', 1)` followed by the first/last extraction. -/
def split_name_once (display_name : String) : String × String :=
  match splitFirst ' ' display_name.data with
  | some p => (String.mk p.1, String.mk p.2)
  | none => (display_name, "")

/-- `NFLPlayersFetcher.transform_player`: `none` when the athlete has no
truthy id (the caller drops the record). -/
def transform_player (team_id_map : List (String × Nat))
    (espn_player : ESPNAthleteItem) (team_abbreviation : Option String) :
    Option NFLPlayerCreate :=
  match espn_player.id with
  | none => none
  | some player_id =>
    if player_id == 0 then none
    else
      let full_name := espn_player.fullName.getD ""
      let display_name := espn_player.displayName.getD full_name
      let name_parts := split_name_once display_name
      let position_abbr :=
        match espn_player.position with
        | some p => p.abbreviation.getD "UNK"
        | none => "UNK"
      let jersey_number :=
        match espn_player.jersey with
        | some j =>
          if j != "" && j.data.all Char.isDigit then some (parseDigitsVal j.data)
          else none
        | none => none
      let status_type :=
        match espn_player.status with
        | some st => st.type.getD "active"
        | none => "active"
      some { external_id := some ("espn_" ++ toString player_id)
             first_name := name_parts.1
             last_name := name_parts.2
             position := position_abbr
             nfl_team_id :=
               match team_abbreviation with
               | some a => if a != "" then mapLookup team_id_map a else none
               | none => none
             jersey_number := jersey_number
             status := status_type }

/-- A position group of an ESPN roster payload. -/
structure ESPNAthleteGroup where
  items : Option (List ESPNAthleteItem)
deriving DecidableEq, Repr

/-- An ESPN team roster payload. -/
structure ESPNRosterData where
  athletes : Option (List ESPNAthleteGroup)
deriving DecidableEq, Repr

/-- The per-team roster processing of `NFLPlayersFetcher.fetch_and_post`:
walk the position groups and their items, keeping the transformed players. -/
def team_roster_players (team_id_map : List (String × Nat))
    (roster_data : ESPNRosterData) (team_abbr : String) : List NFLPlayerCreate :=
  (roster_data.athletes.getD []).foldl (fun acc athlete_group =>
    (athlete_group.items.getD []).foldl (fun acc2 item =>
      match transform_player team_id_map item (some team_abbr) with
      | some player => acc2 ++ [player]
      | none => acc2) acc) []

/-- The sequential roster loop of `NFLPlayersFetcher.fetch_and_post`: teams
are fetched one at a time in list order; a per-team exception is caught and
logged, contributing no players but not stopping the loop. -/
def players_roster_loop (get_team_roster : String → Except HTTPError ESPNRosterData)
    (team_id_map : List (String × Nat)) (team_ids : List String) :
    List NFLPlayerCreate :=
  team_ids.foldl (fun all_players team_abbr =>
    match get_team_roster (pyLower team_abbr) with
    | .ok roster_data =>
      all_players ++ team_roster_players team_id_map roster_data team_abbr
    | .error _ => all_players) []

/-- Fuel-driven chunking; with fuel at least the list's length this is the
`range(0, len(xs), n)` batching loop of the fetchers. -/
def chunksFuel {α : Type} (n : Nat) : Nat → List α → List (List α)
  | 0, _ => []
  | _, [] => []
  | fuel + 1, x :: xs => ((x :: xs).take n) :: chunksFuel n fuel ((x :: xs).drop n)

/-- The posting batches of `fetch_and_post`: consecutive slices of `n`
records (`batch_size = 100` in the source). -/
def listChunks {α : Type} (n : Nat) (l : List α) : List (List α) :=
  chunksFuel n l.length l

/-! ## `scripts/espn_fetchers/nfl_stats_fetcher.py`: stat extraction -/

/-- `NFLStatsFetcher.extract_stat_by_key`: find the key's index in the keys
list, read the stat at that index, and parse it, returning the completions
part of a `completions/passingAttempts` compound, the count part of a
`sacks` compound, or `int(float(value))` otherwise; any failure (missing
key, index out of range, raised `ValueError`/`IndexError`) yields 0. -/
def extract_stat_by_key (stats keys : List String) (key_name : String) : Int :=
  if keys.contains key_name then
    let index := keys.indexOf key_name
    if index < stats.length then
      let value := stats.getD index ""
      if pyIn "/" value && key_name == "completions/passingAttempts" then
        match pyInt ((pySplit '/' value).getD 0 "") with
        | some n => n
        | none => 0
      else if pyIn "-" value && pyIn "sacks" key_name then
        match (pyFloat ((pySplit '-' value).getD 0 "")).map pyTrunc with
        | some n => n
        | none => 0
      else
        match (pyFloat value).map pyTrunc with
        | some n => n
        | none => 0
    else 0
  else 0

/-- `NFLStatsFetcher.extract_stat_by_key_float`: like `extract_stat_by_key`
but kept as a float, returning 0.0 on any failure. -/
def extract_stat_by_key_float (stats keys : List String) (key_name : String) : ℚ :=
  if keys.contains key_name then
    let index := keys.indexOf key_name
    if index < stats.length then
      let value := stats.getD index ""
      if pyIn "-" value && pyIn "sacks" key_name then
        match pyFloat ((pySplit '-' value).getD 0 "") with
        | some q => q
        | none => 0
      else
        match pyFloat value with
        | some q => q
        | none => 0
    else 0
  else 0

/-- `NFLStatsFetcher.extract_passing_attempts`: the attempts part of the
`completions/passingAttempts` compound, 0 on any failure or when the value
has no `/`. -/
def extract_passing_attempts (stats keys : List String) : Int :=
  if keys.contains "completions/passingAttempts" then
    let index := keys.indexOf "completions/passingAttempts"
    if index < stats.length then
      let value := stats.getD index ""
      if pyIn "/" value then
        match pyInt ((pySplit '/' value).getD 1 "") with
        | some n => n
        | none => 0
      else 0
    else 0
  else 0

/-! ## Concrete payloads used to exercise the definitions -/

/-- A stand-in invertible `datetime.fromisoformat` for concrete runs: every
date string parses to itself. -/
def demoIso : String → Option String := fun s => some s

/-- A well-formed scoreboard event between `"KC"` (home) and `"LAC"`
(away). -/
def demoEvent : ESPNEvent :=
  { id := some "401772510"
    date := some "2025-09-07T17:00Z"
    competitions := some
      [{ competitors := some
           [{ team := some ⟨some "KC"⟩, score := some "21", homeAway := some "home" }
            , { team := some ⟨some "LAC"⟩, score := some "17", homeAway := some "away" }]
         status := some ⟨some ⟨some true⟩⟩ }]
    season := some ⟨some 2⟩ }

/-- A scoreboard event whose away abbreviation `"XXX"` is absent from the
demo team map. -/
def demoEventUnknownTeam : ESPNEvent :=
  { id := some "401772511"
    date := some "2025-09-07T20:00Z"
    competitions := some
      [{ competitors := some
           [{ team := some ⟨some "KC"⟩, score := some "28", homeAway := some "home" }
            , { team := some ⟨some "XXX"⟩, score := some "3", homeAway := some "away" }]
         status := some ⟨some ⟨some true⟩⟩ }]
    season := some ⟨some 2⟩ }

/-- The team map used by the demo events. -/
def demoTeamMap : List (String × Nat) := [("KC", 1), ("LAC", 2)]

/-- State of the teams upsert loop after the first `i` records. -/
def teamsLoopAt (tbl teams : List NFLTeamCreate) (i : Nat) :
    List NFLTeamCreate × Nat × Nat :=
  bulkUpsertLoop upsert_nfl_team tbl (teams.take i)

/-- State of the games upsert loop after the first `i` records. -/
def gamesLoopAt (tbl games : List NFLGameCreate) (i : Nat) :
    List NFLGameCreate × Nat × Nat :=
  bulkUpsertLoop upsert_nfl_game tbl (games.take i)

/-- State of the roster-entries upsert loop after the first `i` records. -/
def rostersLoopAt (tbl entries : List RosterEntryCreate) (i : Nat) :
    List RosterEntryCreate × Nat × Nat :=
  bulkUpsertLoop upsert_roster_entry tbl (entries.take i)

/-! ## Helper lemmas -/

theorem foldl_take_succ {α β : Type} (f : β → α → β) (init : β) (l : List α)
    (i : Nat) (hi : i < l.length) :
    (l.take (i+1)).foldl f init = f ((l.take i).foldl f init) (l.get ⟨i, hi⟩) := by
  have h : l.take (i+1) = l.take i ++ [l.get ⟨i, hi⟩] := by
    rw [List.take_succ]
    simp [List.getElem?_eq_getElem hi]
  rw [h, List.foldl_append]
  rfl

theorem bulkLoop_counts {R : Type} (up : List R → R → List R × Bool) :
    ∀ (recs : List R) (s : List R × Nat × Nat),
      (recs.foldl (bulkStep up) s).2.1 + (recs.foldl (bulkStep up) s).2.2
        = s.2.1 + s.2.2 + recs.length := by
  intro recs
  induction recs with
  | nil => intro s; simp
  | cons r rest ih =>
    intro s
    simp only [List.foldl_cons, List.length_cons]
    rw [ih]
    simp only [bulkStep]
    split <;> simp <;> omega

theorem bulkLoop_take_succ {R : Type} (up : List R → R → List R × Bool)
    (tbl : List R) (recs : List R) (i : Nat) (hi : i < recs.length) :
    bulkUpsertLoop up tbl (recs.take (i+1))
      = bulkStep up (bulkUpsertLoop up tbl (recs.take i)) (recs.get ⟨i, hi⟩) :=
  foldl_take_succ (bulkStep up) (tbl, 0, 0) recs i hi

theorem bulkLoop_classify {R : Type} (up : List R → R → List R × Bool)
    (tbl : List R) (recs : List R) (i : Nat) (hi : i < recs.length) :
    ((bulkUpsertLoop up tbl (recs.take (i+1))).2.1
        = (bulkUpsertLoop up tbl (recs.take i)).2.1 + 1
      ↔ (up (bulkUpsertLoop up tbl (recs.take i)).1 (recs.get ⟨i, hi⟩)).2 = true) ∧
    ((bulkUpsertLoop up tbl (recs.take (i+1))).2.2
        = (bulkUpsertLoop up tbl (recs.take i)).2.2 + 1
      ↔ (up (bulkUpsertLoop up tbl (recs.take i)).1 (recs.get ⟨i, hi⟩)).2 = false) := by
  rw [bulkLoop_take_succ up tbl recs i hi]
  simp only [bulkStep, List.get_eq_getElem]
  split
  · rename_i hcond
    simp only [hcond]
    refine ⟨by simp, ⟨fun h2 => absurd h2 (by omega), fun h2 => by simp at h2⟩⟩
  · rename_i hcond
    simp only [Bool.not_eq_true] at hcond
    simp only [hcond]
    refine ⟨⟨fun h2 => absurd h2 (by omega), fun h2 => by simp at h2⟩, by simp⟩

/-! ## Claims -/

/-- C8: a bulk upsert POST with an empty record list fails with HTTP 400 and
a "No <entities> provided" detail before any cursor is opened, leaving the
database unchanged and producing no `BulkCreateResponse`. -/
theorem claim_C8 (tblT : List NFLTeamCreate) (tblG : List NFLGameCreate)
    (tblR : List RosterEntryCreate) :
    create_teams tblT [] = ⟨tblT, false, .error ⟨400, "No teams provided"⟩⟩ ∧
    create_games tblG [] = ⟨tblG, false, .error ⟨400, "No games provided"⟩⟩ ∧
    create_roster_entries tblR []
      = ⟨tblR, false, .error ⟨400, "No roster entries provided"⟩⟩ :=
  ⟨rfl, rfl, rfl⟩

/-- C1: in a bulk POST to the NFL teams endpoint, a submitted team whose
`team_code` already exists in the table (as the sequential loop reaches it)
updates the existing row's `team_name`, `city`, `conference` and `division`
in place — row count unchanged, no second row — and is counted in
`updated_count`, while a team with a new `team_code` appends exactly one row
and is counted in `inserted_count`; the endpoint's final table and reported
counts are those of this loop. -/
theorem claim_C1 (tbl teams : List NFLTeamCreate) (i : Nat)
    (hi : i < teams.length) :
    ((teamsLoopAt tbl teams i).1.any
        (fun r => r.team_code == (teams.get ⟨i, hi⟩).team_code) = true →
      (teamsLoopAt tbl teams (i+1)).1
          = (teamsLoopAt tbl teams i).1.map (overwrite_team (teams.get ⟨i, hi⟩)) ∧
      (teamsLoopAt tbl teams (i+1)).1.length = (teamsLoopAt tbl teams i).1.length ∧
      (∀ r ∈ (teamsLoopAt tbl teams (i+1)).1,
        r.team_code = (teams.get ⟨i, hi⟩).team_code →
          r.team_name = (teams.get ⟨i, hi⟩).team_name ∧
          r.city = (teams.get ⟨i, hi⟩).city ∧
          r.conference = (teams.get ⟨i, hi⟩).conference ∧
          r.division = (teams.get ⟨i, hi⟩).division) ∧
      (teamsLoopAt tbl teams (i+1)).2.1 = (teamsLoopAt tbl teams i).2.1 ∧
      (teamsLoopAt tbl teams (i+1)).2.2 = (teamsLoopAt tbl teams i).2.2 + 1) ∧
    ((teamsLoopAt tbl teams i).1.any
        (fun r => r.team_code == (teams.get ⟨i, hi⟩).team_code) = false →
      (teamsLoopAt tbl teams (i+1)).1
          = (teamsLoopAt tbl teams i).1 ++ [teams.get ⟨i, hi⟩] ∧
      (teamsLoopAt tbl teams (i+1)).2.1 = (teamsLoopAt tbl teams i).2.1 + 1 ∧
      (teamsLoopAt tbl teams (i+1)).2.2 = (teamsLoopAt tbl teams i).2.2) ∧
    (create_teams tbl teams).db = (teamsLoopAt tbl teams teams.length).1 ∧
    (create_teams tbl teams).response.map (fun r => r.inserted_count)
      = .ok (teamsLoopAt tbl teams teams.length).2.1 ∧
    (create_teams tbl teams).response.map (fun r => r.updated_count)
      = .ok (teamsLoopAt tbl teams teams.length).2.2 := by
  have hstep : teamsLoopAt tbl teams (i+1)
      = bulkStep upsert_nfl_team (teamsLoopAt tbl teams i) (teams.get ⟨i, hi⟩) :=
    bulkLoop_take_succ upsert_nfl_team tbl teams i hi
  have hie : teams.isEmpty = false := by
    cases teams with
    | nil => simp at hi
    | cons a l => rfl
  refine ⟨?_, ?_, ?_, ?_, ?_⟩
  · intro hex
    have hres : teamsLoopAt tbl teams (i+1)
        = ((teamsLoopAt tbl teams i).1.map (overwrite_team (teams.get ⟨i, hi⟩)),
           (teamsLoopAt tbl teams i).2.1, (teamsLoopAt tbl teams i).2.2 + 1) := by
      rw [hstep]
      simp only [bulkStep, upsert_nfl_team]
      rw [hex]
      simp
    rw [hres]
    refine ⟨rfl, by simp, ?_, rfl, rfl⟩
    intro r hr hcode
    simp only [List.mem_map] at hr
    obtain ⟨r0, hr0, rfl⟩ := hr
    by_cases hb : r0.team_code == (teams.get ⟨i, hi⟩).team_code
    · have heq : r0.team_code = (teams.get ⟨i, hi⟩).team_code := beq_iff_eq.mp hb
      simp [overwrite_team, heq]
    · exfalso
      apply hb
      have hkeep : (overwrite_team (teams.get ⟨i, hi⟩) r0).team_code = r0.team_code := by
        simp only [overwrite_team]
        split <;> rfl
      rw [hkeep] at hcode
      exact beq_iff_eq.mpr hcode
  · intro hex
    have hres : teamsLoopAt tbl teams (i+1)
        = ((teamsLoopAt tbl teams i).1 ++ [teams.get ⟨i, hi⟩],
           (teamsLoopAt tbl teams i).2.1 + 1, (teamsLoopAt tbl teams i).2.2) := by
      rw [hstep]
      simp only [bulkStep, upsert_nfl_team]
      rw [hex]
      simp
    rw [hres]
    exact ⟨rfl, rfl, rfl⟩
  · simp [create_teams, hie, teamsLoopAt, List.take_length, bulkUpsertLoop, Except.map]
  · simp [create_teams, hie, teamsLoopAt, List.take_length, bulkUpsertLoop, Except.map]
  · simp [create_teams, hie, teamsLoopAt, List.take_length, bulkUpsertLoop, Except.map]

/-- Witness for C1: re-POSTing the `"KC"` row with a new `team_name` updates
in place (row count stays 1) and counts as an update. -/
theorem claim_C1_witness :
    (teamsLoopAt [⟨"KC", "Chiefs", "Kansas City", "AFC", "West"⟩]
        [⟨"KC", "Kansas City Chiefs", "Kansas City", "AFC", "West"⟩] 1).2.2
      = (teamsLoopAt [⟨"KC", "Chiefs", "Kansas City", "AFC", "West"⟩]
          [⟨"KC", "Kansas City Chiefs", "Kansas City", "AFC", "West"⟩] 0).2.2 + 1 ∧
    (teamsLoopAt [⟨"KC", "Chiefs", "Kansas City", "AFC", "West"⟩]
        [⟨"KC", "Kansas City Chiefs", "Kansas City", "AFC", "West"⟩] 1).1.length
      = (teamsLoopAt [⟨"KC", "Chiefs", "Kansas City", "AFC", "West"⟩]
          [⟨"KC", "Kansas City Chiefs", "Kansas City", "AFC", "West"⟩] 0).1.length := by
  have h := claim_C1 [⟨"KC", "Chiefs", "Kansas City", "AFC", "West"⟩]
    [⟨"KC", "Kansas City Chiefs", "Kansas City", "AFC", "West"⟩] 0 (by decide)
  have h1 := h.1 (by decide)
  exact ⟨h1.2.2.2.2, h1.2.1⟩

/-- C2: a bulk upsert POST with a non-empty record list (teams, games,
roster entries) processes the records one by one in a loop, counts a record
as inserted exactly when the upsert's `xmax = 0` introspection reports a
fresh row and as updated exactly otherwise, and returns `success = True`
with `inserted_count + updated_count` equal to the number of submitted
records. -/
theorem claim_C2 (tblT teams : List NFLTeamCreate)
    (tblG games : List NFLGameCreate) (tblR entries : List RosterEntryCreate)
    (hT : teams ≠ []) (hG : games ≠ []) (hR : entries ≠ []) :
    ((create_teams tblT teams).response.map (fun r => r.success) = .ok true ∧
     (create_teams tblT teams).response.map
         (fun r => r.inserted_count + r.updated_count) = .ok teams.length ∧
     ∀ i, ∀ hi : i < teams.length,
       teamsLoopAt tblT teams (i+1)
           = bulkStep upsert_nfl_team (teamsLoopAt tblT teams i) (teams.get ⟨i, hi⟩) ∧
       ((teamsLoopAt tblT teams (i+1)).2.1 = (teamsLoopAt tblT teams i).2.1 + 1
         ↔ (upsert_nfl_team (teamsLoopAt tblT teams i).1 (teams.get ⟨i, hi⟩)).2 = true) ∧
       ((teamsLoopAt tblT teams (i+1)).2.2 = (teamsLoopAt tblT teams i).2.2 + 1
         ↔ (upsert_nfl_team (teamsLoopAt tblT teams i).1 (teams.get ⟨i, hi⟩)).2 = false)) ∧
    ((create_games tblG games).response.map (fun r => r.success) = .ok true ∧
     (create_games tblG games).response.map
         (fun r => r.inserted_count + r.updated_count) = .ok games.length ∧
     ∀ i, ∀ hi : i < games.length,
       gamesLoopAt tblG games (i+1)
           = bulkStep upsert_nfl_game (gamesLoopAt tblG games i) (games.get ⟨i, hi⟩) ∧
       ((gamesLoopAt tblG games (i+1)).2.1 = (gamesLoopAt tblG games i).2.1 + 1
         ↔ (upsert_nfl_game (gamesLoopAt tblG games i).1 (games.get ⟨i, hi⟩)).2 = true) ∧
       ((gamesLoopAt tblG games (i+1)).2.2 = (gamesLoopAt tblG games i).2.2 + 1
         ↔ (upsert_nfl_game (gamesLoopAt tblG games i).1 (games.get ⟨i, hi⟩)).2 = false)) ∧
    ((create_roster_entries tblR entries).response.map (fun r => r.success) = .ok true ∧
     (create_roster_entries tblR entries).response.map
         (fun r => r.inserted_count + r.updated_count) = .ok entries.length ∧
     ∀ i, ∀ hi : i < entries.length,
       rostersLoopAt tblR entries (i+1)
           = bulkStep upsert_roster_entry (rostersLoopAt tblR entries i)
               (entries.get ⟨i, hi⟩) ∧
       ((rostersLoopAt tblR entries (i+1)).2.1 = (rostersLoopAt tblR entries i).2.1 + 1
         ↔ (upsert_roster_entry (rostersLoopAt tblR entries i).1
              (entries.get ⟨i, hi⟩)).2 = true) ∧
       ((rostersLoopAt tblR entries (i+1)).2.2 = (rostersLoopAt tblR entries i).2.2 + 1
         ↔ (upsert_roster_entry (rostersLoopAt tblR entries i).1
              (entries.get ⟨i, hi⟩)).2 = false)) := by
  have hieT : teams.isEmpty = false := by
    cases teams with
    | nil => exact absurd rfl hT
    | cons a l => rfl
  have hieG : games.isEmpty = false := by
    cases games with
    | nil => exact absurd rfl hG
    | cons a l => rfl
  have hieR : entries.isEmpty = false := by
    cases entries with
    | nil => exact absurd rfl hR
    | cons a l => rfl
  refine ⟨⟨?_, ?_, ?_⟩, ⟨?_, ?_, ?_⟩, ⟨?_, ?_, ?_⟩⟩
  · simp [create_teams, hieT, Except.map]
  · simp only [create_teams, hieT, Bool.false_eq_true, if_false, Except.map]
    have := bulkLoop_counts upsert_nfl_team teams (tblT, 0, 0)
    simp only [bulkUpsertLoop]
    rw [this]
    simp
  · intro i hi
    exact ⟨bulkLoop_take_succ upsert_nfl_team tblT teams i hi,
      bulkLoop_classify upsert_nfl_team tblT teams i hi⟩
  · simp [create_games, hieG, Except.map]
  · simp only [create_games, hieG, Bool.false_eq_true, if_false, Except.map]
    have := bulkLoop_counts upsert_nfl_game games (tblG, 0, 0)
    simp only [bulkUpsertLoop]
    rw [this]
    simp
  · intro i hi
    exact ⟨bulkLoop_take_succ upsert_nfl_game tblG games i hi,
      bulkLoop_classify upsert_nfl_game tblG games i hi⟩
  · simp [create_roster_entries, hieR, Except.map]
  · simp only [create_roster_entries, hieR, Bool.false_eq_true, if_false, Except.map]
    have := bulkLoop_counts upsert_roster_entry entries (tblR, 0, 0)
    simp only [bulkUpsertLoop]
    rw [this]
    simp
  · intro i hi
    exact ⟨bulkLoop_take_succ upsert_roster_entry tblR entries i hi,
      bulkLoop_classify upsert_roster_entry tblR entries i hi⟩

/-- Witness for C2: singleton batches against empty tables give
`success = true` and counts summing to 1 on all three endpoints. -/
theorem claim_C2_witness :
    (create_teams [] [⟨"KC", "Kansas City Chiefs", "Kansas City", "AFC", "West"⟩]).response.map
        (fun r => r.success) = .ok true ∧
    (create_teams [] [⟨"KC", "Kansas City Chiefs", "Kansas City", "AFC", "West"⟩]).response.map
        (fun r => r.inserted_count + r.updated_count) = .ok 1 ∧
    (create_games [] [⟨2025, 1, "2025-09-07", 1, 2, none, none, false, "regular",
        none⟩]).response.map (fun r => r.success) = .ok true ∧
    (create_games [] [⟨2025, 1, "2025-09-07", 1, 2, none, none, false, "regular",
        none⟩]).response.map (fun r => r.inserted_count + r.updated_count) = .ok 1 ∧
    (create_roster_entries [] [⟨1, 2, "2025-09-01", none, none⟩]).response.map
        (fun r => r.success) = .ok true ∧
    (create_roster_entries [] [⟨1, 2, "2025-09-01", none, none⟩]).response.map
        (fun r => r.inserted_count + r.updated_count) = .ok 1 := by
  have h := claim_C2 [] [⟨"KC", "Kansas City Chiefs", "Kansas City", "AFC", "West"⟩]
    [] [⟨2025, 1, "2025-09-07", 1, 2, none, none, false, "regular", none⟩]
    [] [⟨1, 2, "2025-09-01", none, none⟩]
    (by simp) (by simp) (by simp)
  exact ⟨h.1.1, h.1.2.1, h.2.1.1, h.2.1.2.1, h.2.2.1, h.2.2.2.1⟩

/-- C5: when the cursor body raises, the transaction is rolled back — the
visible database state is unchanged — and the exception is re-raised; on
success with `commit` enabled the new state is committed; in all cases with
a connection the cursor and connection are closed. -/
theorem claim_C5 {σ α : Type} (commit : Bool) (db : σ)
    (body : σ → Except String (σ × α)) :
    (∀ e, body db = .error e →
      (get_db_cursor commit db true body).result = .error e ∧
      (get_db_cursor commit db true body).db = db ∧
      (get_db_cursor commit db true body).rolledBack = true) ∧
    (∀ db2 a, body db = .ok (db2, a) →
      (commit = true → (get_db_cursor commit db true body).db = db2) ∧
      (get_db_cursor commit db true body).result = .ok a) ∧
    (get_db_cursor commit db true body).cursorClosed = true ∧
    (get_db_cursor commit db true body).connClosed = true := by
  refine ⟨?_, ?_, ?_, ?_⟩
  · intro e he
    simp [get_db_cursor, he]
  · intro db2 a hok
    constructor
    · intro hc
      simp [get_db_cursor, hok, hc]
    · simp [get_db_cursor, hok]
  · cases hb : body db with
    | error e => simp [get_db_cursor, hb]
    | ok val => simp [get_db_cursor, hb]
  · cases hb : body db with
    | error e => simp [get_db_cursor, hb]
    | ok val => simp [get_db_cursor, hb]

/-- Witness for C5: a raising body leaves the state at 0, rolls back and
re-raises; a successful body under `commit` commits the new state. -/
theorem claim_C5_witness :
    (get_db_cursor true (0 : Nat) true
        (fun _ => (.error "boom" : Except String (Nat × Nat)))).result
      = .error "boom" ∧
    (get_db_cursor true (0 : Nat) true
        (fun _ => (.error "boom" : Except String (Nat × Nat)))).db = 0 ∧
    (get_db_cursor true (0 : Nat) true
        (fun _ => (.error "boom" : Except String (Nat × Nat)))).rolledBack = true ∧
    (get_db_cursor true (0 : Nat) true
        (fun _ => (.error "boom" : Except String (Nat × Nat)))).connClosed = true ∧
    (get_db_cursor true (0 : Nat) true
        (fun n => (.ok (n + 1, 7) : Except String (Nat × Nat)))).db = 1 := by
  have h1 := claim_C5 true (0 : Nat) (fun _ => (.error "boom" : Except String (Nat × Nat)))
  have h2 := claim_C5 true (0 : Nat) (fun n => (.ok (n + 1, 7) : Except String (Nat × Nat)))
  have he := h1.1 "boom" rfl
  exact ⟨he.1, he.2.1, he.2.2, h1.2.2.2, (h2.2.1 1 7 rfl).1 rfl⟩

theorem appendLoop_eq_filterMap {α β : Type} (tf : α → Option β) (xs : List α) :
    appendLoop tf xs = xs.filterMap tf := by
  suffices h : ∀ acc, xs.foldl (fun acc x =>
      match tf x with
      | some y => acc ++ [y]
      | none => acc) acc = acc ++ xs.filterMap tf by
    simpa [appendLoop] using h []
  induction xs with
  | nil => intro acc; simp
  | cons x xs ih =>
    intro acc
    simp only [List.foldl_cons, List.filterMap_cons]
    cases htf : tf x with
    | none => exact ih acc
    | some y => simpa using ih (acc ++ [y])

theorem appendLoop_total {α β : Type} (f : α → β) (xs : List α) :
    appendLoop (fun x => some (f x)) xs = xs.map f := by
  rw [appendLoop_eq_filterMap]
  induction xs with
  | nil => rfl
  | cons x xs ih => simp [List.filterMap_cons, ih]

/-- C3, counterexample to the claim as stated: an HTTP-level failure from
ESPN is not caught inside the teams pipeline and no
`{"success": False, ...}` result is returned — `fetch_and_post` lets the
exception propagate. -/
theorem claim_C3_cex :
    nfl_teams_fetch_and_post (.error ⟨500, "connection error"⟩)
        (fun api_teams => .ok ⟨true, api_teams.length, 0, "ok"⟩)
      = .error ⟨500, "connection error"⟩ := rfl

/-- C3, amended: an HTTP-level failure from ESPN or from the internal API
propagates out of the pipeline's `fetch_and_post`; it is caught only by the
top-level try block of the load script, which returns exit code 1 (exit
code 0 when every pipeline returns normally); the
`{"success": False, "message": ...}` result is produced only when the
pipeline ends with an empty batch to post. -/
theorem claim_C3 (e : HTTPError)
    (post_nfl_teams : List NFLTeamCreate → Except HTTPError BulkCreateResponse)
    (espn_teams : List ESPNTeamPayload) :
    nfl_teams_fetch_and_post (.error e) post_nfl_teams = .error e ∧
    (espn_teams ≠ [] →
      post_nfl_teams (appendLoop (fun t => some (transform_team t)) espn_teams)
          = .error e →
      nfl_teams_fetch_and_post (.ok espn_teams) post_nfl_teams = .error e) ∧
    nfl_teams_fetch_and_post (.ok []) post_nfl_teams
      = .ok (.noData "No teams fetched") ∧
    (∀ rest, load_nfl_data_main (.error e :: rest) = 1) ∧
    (∀ r : PipelineResult, load_nfl_data_main [.ok r] = 0) := by
  refine ⟨rfl, ?_, rfl, ?_, ?_⟩
  · intro hne hpost
    have hlen : (appendLoop (fun t => some (transform_team t)) espn_teams).isEmpty = false := by
      rw [appendLoop_total]
      cases espn_teams with
      | nil => exact absurd rfl hne
      | cons a l => rfl
    simp [nfl_teams_fetch_and_post, hlen, hpost, Except.map]
  · intro rest
    simp [load_nfl_data_main]
  · intro r
    simp [load_nfl_data_main]

/-- Witness for C3 (amended): a failing post propagates out of the teams
pipeline and the load script's main returns exit code 1. -/
theorem claim_C3_witness :
    nfl_teams_fetch_and_post (.ok [⟨none, none, none, none⟩])
        (fun _ => .error ⟨502, "bad gateway"⟩)
      = .error ⟨502, "bad gateway"⟩ ∧
    load_nfl_data_main [.error ⟨502, "bad gateway"⟩] = 1 := by
  have h := claim_C3 ⟨502, "bad gateway"⟩ (fun _ => .error ⟨502, "bad gateway"⟩)
    [⟨none, none, none, none⟩]
  exact ⟨h.2.1 (by simp) rfl, h.2.2.2.1 []⟩

theorem pyOrStr_ne_empty (o : Option String) (dflt : String) (hd : dflt ≠ "") :
    pyOrStr o dflt ≠ "" := by
  unfold pyOrStr
  cases o with
  | none => exact hd
  | some s =>
    by_cases hs : s = ""
    · simp [hs, hd]
    · simp [hs]

/-- C9: `transform_team` always produces non-empty conference and division:
an undetermined (or empty) conference silently becomes `"AFC"` and an
unmatched division `"East"`; no team is dropped by the transform loop — each
ESPN team contributes exactly its transformed record to the posted batch. -/
theorem claim_C9 (espn_team : ESPNTeamPayload) (espn_teams : List ESPNTeamPayload) :
    ((transform_team espn_team).conference ≠ "" ∧
     (transform_team espn_team).division ≠ "") ∧
    (conference_from_groups (espn_team.groups.getD ⟨none, none, none⟩) = none ∨
       conference_from_groups (espn_team.groups.getD ⟨none, none, none⟩) = some "" →
      (transform_team espn_team).conference = "AFC") ∧
    (division_from_groups (espn_team.groups.getD ⟨none, none, none⟩) = none →
      (transform_team espn_team).division = "East") ∧
    (appendLoop (fun t => some (transform_team t)) espn_teams).length
        = espn_teams.length ∧
    (∀ t ∈ espn_teams,
      transform_team t ∈ appendLoop (fun t => some (transform_team t)) espn_teams) := by
  refine ⟨⟨?_, ?_⟩, ?_, ?_, ?_, ?_⟩
  · exact pyOrStr_ne_empty _ "AFC" (by decide)
  · exact pyOrStr_ne_empty _ "East" (by decide)
  · intro h
    show pyOrStr (conference_from_groups (espn_team.groups.getD ⟨none, none, none⟩)) "AFC"
        = "AFC"
    rcases h with h | h <;> simp [h, pyOrStr]
  · intro h
    show pyOrStr (division_from_groups (espn_team.groups.getD ⟨none, none, none⟩)) "East"
        = "East"
    simp [h, pyOrStr]
  · rw [appendLoop_total]
    exact List.length_map espn_teams _
  · intro t ht
    rw [appendLoop_total]
    exact List.mem_map_of_mem _ ht

/-- Witness for C9: a team payload with no groups data is transformed, not
dropped, and is placed in `"AFC"` `"East"`. -/
theorem claim_C9_witness :
    (transform_team ⟨some "Kansas City", some "Chiefs", some "KC", none⟩).conference
      = "AFC" ∧
    (transform_team ⟨some "Kansas City", some "Chiefs", some "KC", none⟩).division
      = "East" ∧
    (appendLoop (fun t => some (transform_team t))
        [⟨some "Kansas City", some "Chiefs", some "KC", none⟩]).length = 1 := by
  have h := claim_C9 ⟨some "Kansas City", some "Chiefs", some "KC", none⟩
    [⟨some "Kansas City", some "Chiefs", some "KC", none⟩]
  exact ⟨h.2.1 (Or.inl rfl), h.2.2.1 rfl, h.2.2.2.1⟩

/-- C4: a record of a fetched batch whose transform fails — a caught
exception, malformed competition data, or a home/away abbreviation that the
team map cannot resolve — is excluded from the batch on its own: the loop's
output without it is unchanged, every record whose transform succeeds is
still in the output, and concretely an event with an unknown away team
yields `none` while the same shape with resolvable teams is kept. -/
theorem claim_C4 (fromisoformat : String → Option String)
    (team_code_to_id : List (String × Nat)) (season week : Nat)
    (pre post : List ESPNEvent) (ev : ESPNEvent)
    (hfail : transform_game fromisoformat team_code_to_id ev season week = none) :
    week_events_games fromisoformat team_code_to_id season week (pre ++ ev :: post)
        = week_events_games fromisoformat team_code_to_id season week (pre ++ post) ∧
    (∀ e ∈ pre ++ ev :: post, ∀ g,
        transform_game fromisoformat team_code_to_id e season week = some g →
        g ∈ week_events_games fromisoformat team_code_to_id season week
              (pre ++ ev :: post)) ∧
    transform_game demoIso demoTeamMap demoEventUnknownTeam 2025 1 = none ∧
    (transform_game demoIso demoTeamMap demoEvent 2025 1).isSome = true := by
  refine ⟨?_, ?_, by decide, by decide⟩
  · simp [week_events_games, appendLoop_eq_filterMap, List.filterMap_append,
      List.filterMap_cons, hfail]
  · intro e he g hg
    simp only [week_events_games, appendLoop_eq_filterMap]
    exact List.mem_filterMap.mpr ⟨e, he, hg⟩

/-- Witness for C4: dropping the unknown-team event from a two-event batch
leaves exactly the transform of the resolvable event. -/
theorem claim_C4_witness :
    week_events_games demoIso demoTeamMap 2025 1
        ([demoEvent] ++ demoEventUnknownTeam :: [])
      = week_events_games demoIso demoTeamMap 2025 1 ([demoEvent] ++ []) := by
  have h := claim_C4 demoIso demoTeamMap 2025 1 [demoEvent] [] demoEventUnknownTeam
    (by decide)
  exact h.1

theorem dictInsert_of_not_mem (acc : List (String × Nat)) (k : String) (v : Nat)
    (h : acc.any (fun q => q.1 == k) = false) :
    dictInsert acc k v = acc ++ [(k, v)] := by
  simp only [dictInsert]
  rw [if_neg]
  simp [h]

theorem foldl_dictInsert_eq {ρ : Type} (p : ρ → Bool) (k : ρ → String) (v : ρ → Nat) :
    ∀ (rows : List ρ) (acc : List (String × Nat)),
      (∀ r ∈ rows, p r = true → ∀ q ∈ acc, q.1 ≠ k r) →
      ((rows.filter p).map k).Nodup →
      rows.foldl (fun m r => if p r then dictInsert m (k r) (v r) else m) acc
        = acc ++ (rows.filter p).map (fun r => (k r, v r)) := by
  intro rows
  induction rows with
  | nil =>
    intro acc h hd
    simp
  | cons r rest ih =>
    intro acc hdisj hnd
    by_cases hp : p r = true
    · have hfc : (r :: rest).filter p = r :: rest.filter p := by
        simp [List.filter_cons, hp]
      rw [hfc] at hnd
      simp only [List.map_cons, List.nodup_cons] at hnd
      have hknotin : acc.any (fun q => q.1 == k r) = false := by
        by_contra hc
        rw [Bool.not_eq_false, List.any_eq_true] at hc
        obtain ⟨q, hq, hq2⟩ := hc
        exact hdisj r (List.mem_cons_self r rest) hp q hq (by simpa using hq2)
      have hins : dictInsert acc (k r) (v r) = acc ++ [(k r, v r)] :=
        dictInsert_of_not_mem acc (k r) (v r) hknotin
      simp only [List.foldl_cons, hp, if_true, hins]
      rw [ih (acc ++ [(k r, v r)]) ?_ hnd.2]
      · rw [hfc]
        simp [List.append_assoc]
      · intro r2 hr2 hp2 q hq
        rcases List.mem_append.mp hq with hq | hq
        · exact hdisj r2 (List.mem_cons_of_mem r hr2) hp2 q hq
        · have hqe : q = (k r, v r) := by simpa using hq
          subst hqe
          intro hEq
          apply hnd.1
          have : k r2 ∈ (rest.filter p).map k :=
            List.mem_map_of_mem k (List.mem_filter.mpr ⟨hr2, hp2⟩)
          rw [← hEq] at this
          exact this
    · have hpf : p r = false := by
        revert hp
        cases p r <;> simp
      have hfc : (r :: rest).filter p = rest.filter p := by
        simp [List.filter_cons, hpf]
      rw [hfc] at hnd
      simp only [List.foldl_cons, hpf, Bool.false_eq_true, if_false]
      rw [ih acc ?_ hnd]
      · rw [hfc]
      · intro r2 hr2 hp2 q hq
        exact hdisj r2 (List.mem_cons_of_mem r hr2) hp2 q hq

/-- C6, counterexample to the claim as stated: the players table has no
uniqueness constraint on `external_id`, so the fetched rows may repeat a
key; the map then holds only the last row's id, not each row's own id. -/
theorem claim_C6_cex :
    ¬ playerMapClaim [⟨some "espn_1", some 1⟩, ⟨some "espn_1", some 2⟩] := by
  intro h
  have := h ⟨some "espn_1", some 1⟩ (by simp) (by decide)
  simp only at this
  exact absurd this (by decide)

/-- C6, amended: over fetched rows whose truthy external keys are pairwise
distinct — which the `nfl_teams.team_code` UNIQUE constraint guarantees for
the team map — the built lookup map is exactly one entry per row with truthy
key and id, in fetch order, mapping that key to that row's id, and nothing
else; rows missing either field contribute nothing.  (With duplicate keys,
possible for the player map, the last row wins.) -/
theorem claim_C6 (api_teams : List APITeamRow) (api_players : List APIPlayerRow)
    (hT : ((api_teams.filter (fun r => truthyS r.team_code && truthyN r.id)).map
        (fun r => r.team_code.getD "")).Nodup)
    (hP : ((api_players.filter (fun r => truthyS r.external_id && truthyN r.id)).map
        (fun r => r.external_id.getD "")).Nodup) :
    build_team_map api_teams
        = (api_teams.filter (fun r => truthyS r.team_code && truthyN r.id)).map
            (fun r => (r.team_code.getD "", r.id.getD 0)) ∧
    build_player_map api_players
        = (api_players.filter (fun r => truthyS r.external_id && truthyN r.id)).map
            (fun r => (r.external_id.getD "", r.id.getD 0)) := by
  constructor
  · have h := foldl_dictInsert_eq
      (fun r : APITeamRow => truthyS r.team_code && truthyN r.id)
      (fun r => r.team_code.getD "") (fun r => r.id.getD 0) api_teams []
      (by intro r hr hp q hq; simp at hq) hT
    simpa [build_team_map] using h
  · have h := foldl_dictInsert_eq
      (fun r : APIPlayerRow => truthyS r.external_id && truthyN r.id)
      (fun r => r.external_id.getD "") (fun r => r.id.getD 0) api_players []
      (by intro r hr hp q hq; simp at hq) hP
    simpa [build_player_map] using h

/-- Witness for C6 (amended): distinct keys give exactly the truthy rows'
entries, in order; the row with a missing key contributes nothing. -/
theorem claim_C6_witness :
    build_team_map [⟨some "KC", some 1⟩, ⟨some "LAC", some 2⟩, ⟨none, some 3⟩]
      = [("KC", 1), ("LAC", 2)] ∧
    build_player_map [⟨some "espn_9", some 4⟩, ⟨some "", some 5⟩]
      = [("espn_9", 4)] := by
  have h := claim_C6 [⟨some "KC", some 1⟩, ⟨some "LAC", some 2⟩, ⟨none, some 3⟩]
    [⟨some "espn_9", some 4⟩, ⟨some "", some 5⟩] (by decide) (by decide)
  exact ⟨h.1.trans (by decide), h.2.trans (by decide)⟩

theorem players_roster_loop_eq
    (get_team_roster : String → Except HTTPError ESPNRosterData)
    (team_id_map : List (String × Nat)) :
    ∀ team_ids : List String,
      players_roster_loop get_team_roster team_id_map team_ids
        = (team_ids.map (fun team_abbr =>
            match get_team_roster (pyLower team_abbr) with
            | .ok roster_data => team_roster_players team_id_map roster_data team_abbr
            | .error _ => [])).flatten := by
  suffices h : ∀ (team_ids : List String) (acc : List NFLPlayerCreate),
      team_ids.foldl (fun all_players team_abbr =>
        match get_team_roster (pyLower team_abbr) with
        | .ok roster_data =>
          all_players ++ team_roster_players team_id_map roster_data team_abbr
        | .error _ => all_players) acc
      = acc ++ (team_ids.map (fun team_abbr =>
          match get_team_roster (pyLower team_abbr) with
          | .ok roster_data => team_roster_players team_id_map roster_data team_abbr
          | .error _ => [])).flatten by
    intro team_ids
    simpa [players_roster_loop] using h team_ids []
  intro team_ids
  induction team_ids with
  | nil => intro acc; simp
  | cons a rest ih =>
    intro acc
    simp only [List.foldl_cons, List.map_cons, List.flatten_cons]
    cases hf : get_team_roster (pyLower a) with
    | ok roster_data => simpa [List.append_assoc] using ih (acc ++ team_roster_players team_id_map roster_data a)
    | error e => simpa using ih acc

theorem chunksFuel_flatten {α : Type} (n : Nat) (hn : 0 < n) :
    ∀ (fuel : Nat) (l : List α), l.length ≤ fuel → (chunksFuel n fuel l).flatten = l := by
  intro fuel
  induction fuel with
  | zero =>
    intro l hl
    have : l = [] := List.length_eq_zero.mp (Nat.le_zero.mp hl)
    subst this
    rfl
  | succ f ih =>
    intro l hl
    cases l with
    | nil => rfl
    | cons x xs =>
      simp only [chunksFuel, List.flatten_cons]
      rw [ih ((x :: xs).drop n) ?_]
      · exact List.take_append_drop n (x :: xs)
      · simp only [List.length_drop, List.length_cons]
        simp only [List.length_cons] at hl
        omega

/-- C7: team rosters are fetched strictly one at a time in list order — the
collected batch is the in-order concatenation of each team's players, where
a team whose fetch raises contributes nothing (the exception is caught per
item) — so a failing team splices out of the batch without affecting earlier
or later teams, every successfully fetched team's players are in the batch,
and the batch is exactly what the 100-record posting loop posts. -/
theorem claim_C7 (get_team_roster : String → Except HTTPError ESPNRosterData)
    (team_id_map : List (String × Nat)) (team_ids : List String) :
    players_roster_loop get_team_roster team_id_map team_ids
        = (team_ids.map (fun team_abbr =>
            match get_team_roster (pyLower team_abbr) with
            | .ok roster_data => team_roster_players team_id_map roster_data team_abbr
            | .error _ => [])).flatten ∧
    (∀ (pre rest : List String) (a : String) (e : HTTPError),
      team_ids = pre ++ a :: rest →
      get_team_roster (pyLower a) = .error e →
      players_roster_loop get_team_roster team_id_map team_ids
        = players_roster_loop get_team_roster team_id_map pre
            ++ players_roster_loop get_team_roster team_id_map rest) ∧
    (∀ b ∈ team_ids, ∀ roster_data,
      get_team_roster (pyLower b) = .ok roster_data →
      ∀ pl ∈ team_roster_players team_id_map roster_data b,
        pl ∈ players_roster_loop get_team_roster team_id_map team_ids) ∧
    (listChunks 100 (players_roster_loop get_team_roster team_id_map team_ids)).flatten
      = players_roster_loop get_team_roster team_id_map team_ids := by
  refine ⟨players_roster_loop_eq get_team_roster team_id_map team_ids, ?_, ?_, ?_⟩
  · intro pre rest a e hsplit herr
    subst hsplit
    rw [players_roster_loop_eq, players_roster_loop_eq, players_roster_loop_eq]
    simp [herr]
  · intro b hb roster_data hok pl hpl
    rw [players_roster_loop_eq]
    refine List.mem_flatten.mpr ⟨team_roster_players team_id_map roster_data b, ?_, hpl⟩
    have : (fun team_abbr =>
        match get_team_roster (pyLower team_abbr) with
        | .ok rd => team_roster_players team_id_map rd team_abbr
        | .error _ => []) b = team_roster_players team_id_map roster_data b := by
      simp [hok]
    rw [← this]
    exact List.mem_map_of_mem _ hb
  · exact chunksFuel_flatten 100 (by decide) _ _ (Nat.le_refl _)

/-- Witness for C7: with KC's roster available and XX failing, the loop
yields exactly KC's players and the failing team splices out. -/
theorem claim_C7_witness :
    players_roster_loop
        (fun s => if s = "kc" then
            .ok ⟨some [⟨some [⟨some 15, some "Patrick Mahomes", some "Patrick Mahomes",
              some ⟨some "QB"⟩, some "15", some ⟨some "active"⟩⟩]⟩]⟩
          else .error ⟨500, "down"⟩)
        [("KC", 1)] (["KC"] ++ "XX" :: [])
      = players_roster_loop
          (fun s => if s = "kc" then
              .ok ⟨some [⟨some [⟨some 15, some "Patrick Mahomes", some "Patrick Mahomes",
                some ⟨some "QB"⟩, some "15", some ⟨some "active"⟩⟩]⟩]⟩
            else .error ⟨500, "down"⟩)
          [("KC", 1)] ["KC"]
        ++ players_roster_loop
            (fun s => if s = "kc" then
                .ok ⟨some [⟨some [⟨some 15, some "Patrick Mahomes", some "Patrick Mahomes",
                  some ⟨some "QB"⟩, some "15", some ⟨some "active"⟩⟩]⟩]⟩
              else .error ⟨500, "down"⟩)
            [("KC", 1)] [] := by
  have h := claim_C7
    (fun s => if s = "kc" then
        .ok ⟨some [⟨some [⟨some 15, some "Patrick Mahomes", some "Patrick Mahomes",
          some ⟨some "QB"⟩, some "15", some ⟨some "active"⟩⟩]⟩]⟩
      else .error ⟨500, "down"⟩)
    [("KC", 1)] (["KC"] ++ "XX" :: [])
  exact h.2.1 ["KC"] [] "XX" ⟨500, "down"⟩ rfl (by decide)

/-- C10: the stat-extraction helpers never raise and return 0 (0.0 for the
float variant) when the key is absent, the index is out of range, or the
value fails numeric parsing; and on a well-formed `c/a` compound under the
`completions/passingAttempts` key, `extract_stat_by_key` returns the
completions `c` while `extract_passing_attempts` returns the attempts `a`. -/
theorem claim_C10 (stats keys : List String) (key_name v s1 s2 : String) :
    (keys.contains key_name = false →
      extract_stat_by_key stats keys key_name = 0 ∧
      extract_stat_by_key_float stats keys key_name = 0) ∧
    (keys.contains "completions/passingAttempts" = false →
      extract_passing_attempts stats keys = 0) ∧
    (stats.length ≤ keys.indexOf key_name →
      extract_stat_by_key stats keys key_name = 0 ∧
      extract_stat_by_key_float stats keys key_name = 0) ∧
    (stats.length ≤ keys.indexOf "completions/passingAttempts" →
      extract_passing_attempts stats keys = 0) ∧
    (pyFloat (stats.getD (keys.indexOf key_name) "") = none →
      key_name ≠ "completions/passingAttempts" →
      pyIn "sacks" key_name = false →
      extract_stat_by_key stats keys key_name = 0 ∧
      extract_stat_by_key_float stats keys key_name = 0) ∧
    (pyInt ((pySplit '/'
        (stats.getD (keys.indexOf "completions/passingAttempts") "")).getD 1 "") = none →
      extract_passing_attempts stats keys = 0) ∧
    (keys.contains "completions/passingAttempts" = true →
      keys.indexOf "completions/passingAttempts" < stats.length →
      stats.getD (keys.indexOf "completions/passingAttempts") "" = v →
      pyIn "/" v = true →
      pySplit '/' v = [s1, s2] →
      ∀ c a : Int, pyInt s1 = some c → pyInt s2 = some a →
        extract_stat_by_key stats keys "completions/passingAttempts" = c ∧
        extract_passing_attempts stats keys = a) := by
  refine ⟨?_, ?_, ?_, ?_, ?_, ?_, ?_⟩
  · intro h
    constructor
    · simp only [extract_stat_by_key]
      rw [h, if_neg Bool.false_ne_true]
    · simp only [extract_stat_by_key_float]
      rw [h, if_neg Bool.false_ne_true]
  · intro h
    simp only [extract_passing_attempts]
    rw [h, if_neg Bool.false_ne_true]
  · intro h
    have hnl : ¬ keys.indexOf key_name < stats.length := Nat.not_lt.mpr h
    by_cases hc : keys.contains key_name = true
    · constructor
      · simp only [extract_stat_by_key]
        rw [hc, if_pos rfl, if_neg hnl]
      · simp only [extract_stat_by_key_float]
        rw [hc, if_pos rfl, if_neg hnl]
    · have hcf : keys.contains key_name = false := by
        revert hc
        cases keys.contains key_name <;> simp
      constructor
      · simp only [extract_stat_by_key]
        rw [hcf, if_neg Bool.false_ne_true]
      · simp only [extract_stat_by_key_float]
        rw [hcf, if_neg Bool.false_ne_true]
  · intro h
    have hnl : ¬ keys.indexOf "completions/passingAttempts" < stats.length :=
      Nat.not_lt.mpr h
    by_cases hc : keys.contains "completions/passingAttempts" = true
    · simp only [extract_passing_attempts]
      rw [hc, if_pos rfl, if_neg hnl]
    · have hcf : keys.contains "completions/passingAttempts" = false := by
        revert hc
        cases keys.contains "completions/passingAttempts" <;> simp
      simp only [extract_passing_attempts]
      rw [hcf, if_neg Bool.false_ne_true]
  · intro hpf hneq hsacks
    have hbeq : (key_name == "completions/passingAttempts") = false :=
      beq_eq_false_iff_ne.mpr hneq
    by_cases hc : keys.contains key_name = true
    · by_cases hlt : keys.indexOf key_name < stats.length
      · constructor
        · simp only [extract_stat_by_key]
          rw [hc, if_pos rfl, if_pos hlt, hbeq, Bool.and_false,
            if_neg Bool.false_ne_true, hsacks, Bool.and_false,
            if_neg Bool.false_ne_true, hpf]
          rfl
        · simp only [extract_stat_by_key_float]
          rw [hc, if_pos rfl, if_pos hlt, hsacks, Bool.and_false,
            if_neg Bool.false_ne_true, hpf]
      · constructor
        · simp only [extract_stat_by_key]
          rw [hc, if_pos rfl, if_neg hlt]
        · simp only [extract_stat_by_key_float]
          rw [hc, if_pos rfl, if_neg hlt]
    · have hcf : keys.contains key_name = false := by
        revert hc
        cases keys.contains key_name <;> simp
      constructor
      · simp only [extract_stat_by_key]
        rw [hcf, if_neg Bool.false_ne_true]
      · simp only [extract_stat_by_key_float]
        rw [hcf, if_neg Bool.false_ne_true]
  · intro hpa
    by_cases hc : keys.contains "completions/passingAttempts" = true
    · by_cases hlt : keys.indexOf "completions/passingAttempts" < stats.length
      · by_cases hsl : pyIn "/"
            (stats.getD (keys.indexOf "completions/passingAttempts") "") = true
        · simp only [extract_passing_attempts]
          rw [hc, if_pos rfl, if_pos hlt, if_pos hsl, hpa]
        · simp only [extract_passing_attempts]
          rw [hc, if_pos rfl, if_pos hlt, if_neg hsl]
      · simp only [extract_passing_attempts]
        rw [hc, if_pos rfl, if_neg hlt]
    · have hcf : keys.contains "completions/passingAttempts" = false := by
        revert hc
        cases keys.contains "completions/passingAttempts" <;> simp
      simp only [extract_passing_attempts]
      rw [hcf, if_neg Bool.false_ne_true]
  · intro hc hlt hv hslash hsplit c a hc1 hc2
    constructor
    · simp only [extract_stat_by_key]
      rw [hc, if_pos rfl, if_pos hlt, hv, hslash, beq_self_eq_true, Bool.and_true,
        if_pos rfl, hsplit, List.getD_cons_zero, hc1]
    · simp only [extract_passing_attempts]
      rw [hc, if_pos rfl, if_pos hlt, hv, if_pos hslash, hsplit,
        List.getD_cons_succ, List.getD_cons_zero, hc2]

/-- Witness for C10: `"21/34"` yields 21 completions and 34 attempts; a
missing key, an out-of-range index and an unparsable value each yield 0. -/
theorem claim_C10_witness :
    extract_stat_by_key ["21/34", "310"] ["completions/passingAttempts", "passingYards"]
        "completions/passingAttempts" = 21 ∧
    extract_passing_attempts ["21/34", "310"]
        ["completions/passingAttempts", "passingYards"] = 34 ∧
    extract_stat_by_key ["21/34"] ["completions/passingAttempts", "passingYards"]
        "passingYards" = 0 ∧
    extract_stat_by_key ["21/34", "310"] ["completions/passingAttempts", "passingYards"]
        "rushingYards" = 0 ∧
    extract_stat_by_key_float ["abc"] ["passingYards"] "passingYards" = 0 ∧
    extract_stat_by_key ["abc"] ["passingYards"] "passingYards" = 0 := by
  have h1 := claim_C10 ["21/34", "310"] ["completions/passingAttempts", "passingYards"]
    "completions/passingAttempts" "21/34" "21" "34"
  have hcomp := h1.2.2.2.2.2.2 (by decide) (by decide) (by decide) (by decide)
    (by decide) 21 34 (by decide) (by decide)
  have h2 := claim_C10 ["21/34"] ["completions/passingAttempts", "passingYards"]
    "passingYards" "" "" ""
  have hoob := h2.2.2.1 (by decide)
  have h3 := claim_C10 ["21/34", "310"] ["completions/passingAttempts", "passingYards"]
    "rushingYards" "" "" ""
  have habs := h3.1 (by decide)
  have h4 := claim_C10 ["abc"] ["passingYards"] "passingYards" "" "" ""
  have hpf := h4.2.2.2.2.1 (by decide) (by decide) (by decide)
  exact ⟨hcomp.1, hcomp.2, hoob.1, habs.1, hpf.2, hpf.1⟩
